import Mathlib

/-!
Verification of the Strams backend (a Hono/TypeScript HTTP API) against its
natural-language specification.  The repository contains two route modules:
`src/index.ts` (JWT via `jsonwebtoken`, auth middleware `protectedRoute`) and
an unnamed variant (`part_000`, JWT via `hono/jwt`, inline auth on
`GET /movies`).  Both are shallowly embedded here: database tables become
lists, handlers become pure functions from request data and store state to a
response (and a new state), and the external collaborators (bcrypt, the JWT
libraries, JSON-body parsing by zod) are modelled by explicit structures
faithful to their observable semantics.
-/

/-! ## External collaborators: bcrypt and JWT -/

/-- Model of a bcrypt hash: `bcrypt.hash(p, 10)` produces a salted hash from
which the plaintext can be checked with `bcrypt.compare`.  The salt models the
randomness making equal plaintexts hash differently across calls. -/
structure BHash where
  plain : String
  salt : Nat
deriving DecidableEq, Repr

/-- `bcrypt.hash(plaintext, 10)` with a given random salt. -/
def bcryptHash (p : String) (salt : Nat) : BHash := ⟨p, salt⟩

/-- `bcrypt.compare(plaintext, hash)`: true iff the hash was derived from this
plaintext. -/
def bcryptCompare (p : String) (h : BHash) : Bool := p = h.plain

/-- JWT payload.  The union of the claim fields appearing in the two variants:
`src/index.ts` signs `{ id }`; `part_000` signs `{ sub, role, exp }` and its
`GET /movies` reads `payload.userId`.  Absent JSON fields are `none`. -/
structure Payload where
  id : Option String
  sub : Option String
  role : Option String
  exp : Option Nat
  userId : Option String
deriving DecidableEq, Repr

/-- A signed token: the encoded payload together with the secret it was signed
with (signature validity is modelled as secret equality). -/
structure Token where
  payload : Payload
  secret : String
deriving DecidableEq, Repr

/-- `jwt.sign(payload, secret)` / `sign(payload, secret)`. -/
def jwtSign (p : Payload) (s : String) : Token := ⟨p, s⟩

/-- `jwt.verify(token, secret)` (jsonwebtoken) and `verify(token, secret)`
(hono/jwt): succeeds iff the signature matches the secret and, when an `exp`
claim is present, the current time (seconds) is before it; both libraries
treat `now ≥ exp` as expired.  Failure (`none`) models the thrown error. -/
def jwtVerify (t : Token) (s : String) (now : Nat) : Option Payload :=
  if t.secret = s then
    match t.payload.exp with
    | none => some t.payload
    | some e => if now < e then some t.payload else none
  else none

/-! ## Data model -/

/-- A row of the `User` table: `id` (PK), `email`, bcrypt `password`, `name`. -/
structure User where
  id : String
  email : String
  password : BHash
  name : String
deriving DecidableEq, Repr

/-- A row of the `Movie` table. -/
structure Movie where
  movieID : String
  title : String
  posterLink : String
  watchLink : String
deriving DecidableEq, Repr

/-! ## HTTP responses -/

/-- Response bodies the handlers produce, kept structured so that what is
exposed (tokens, full user rows, movie lists, message/status JSON fields) is
visible in the model. -/
inductive RespBody where
  /-- `c.json({ token })`. -/
  | token (t : Token)
  /-- `c.json({ message, status })` — note the `status` here is a JSON body
  field, not the HTTP status. -/
  | msgStatus (message : String) (statusField : Nat)
  /-- `c.json({ message })`. -/
  | msg (message : String)
  /-- `c.json({ mssg, status })` (part_000). -/
  | mssgStatus (mssg : String) (statusField : Nat)
  /-- `c.json({ mssg })` (part_000). -/
  | mssg (mssg : String)
  /-- `c.json(totalusers)` — the raw `User` rows, password hashes included. -/
  | users (l : List User)
  /-- `c.json({ moviesData })`. -/
  | moviesData (l : List Movie)
  /-- `c.json(rows)` for a drizzle `.returning()` result. -/
  | movieRows (l : List Movie)
  /-- `c.text(s, code)`. -/
  | text (s : String)
  /-- `c.json({ token })` in part_000, where `token` is the un-awaited
  `Promise` returned by hono/jwt's async `sign` (part_000:98 and 138): a
  pending promise JSON-serializes as `{}`, so the wire body is
  `{"token":{}}` and carries no token. -/
  | tokenPending
deriving DecidableEq, Repr

/-- An HTTP response: status code and body.  `c.json(body)` without a second
argument is status 200. -/
structure Response where
  status : Nat
  body : RespBody
deriving DecidableEq, Repr

/-! ## JavaScript string split

`header.split(" ")` splits on every single space, keeping empty chunks:
`"a  b".split(" ") = ["a","","b"]`, `"".split(" ") = [""]`.  Defined on
`List Char` by structural recursion so it evaluates in the kernel. -/

def splitSp : List Char → List (List Char)
  | [] => [[]]
  | c :: cs =>
    if c = ' ' then [] :: splitSp cs
    else
      match splitSp cs with
      | [] => [[c]]
      | w :: ws => (c :: w) :: ws

/-- `s.split(" ")` in JavaScript. -/
def jsSplitSpace (s : String) : List String :=
  (splitSp s.data).map (fun w => ⟨w⟩)

/-! ## Request validation (zod schemas)

A JSON request body is modelled with one `Option String` per field (absent or
wrongly-typed fields are `none`).  `schema.parse(body)` either returns the
typed data or throws a `ZodError`; the `Option` result models that.  Zod's
`.email()` check is a fixed regular expression on the string; it is abstracted
as a parameter `emailOk` so no behaviour is invented for it. -/

structure SigninData where
  email : String
  password : String
deriving DecidableEq, Repr

structure SignupData where
  name : String
  email : String
  password : String
deriving DecidableEq, Repr

structure MovieData where
  title : String
  posterLink : String
  watchLink : String
deriving DecidableEq, Repr

structure RawAuthBody where
  name : Option String
  email : Option String
  password : Option String
deriving DecidableEq, Repr

structure RawMovieBody where
  title : Option String
  posterLink : Option String
  watchLink : Option String
deriving DecidableEq, Repr

/-- `userSchema.parse`: `{ email: z.string().email(), password: z.string().min(8) }`. -/
def userSchemaParse (emailOk : String → Bool) (b : RawAuthBody) : Option SigninData :=
  match b.email, b.password with
  | some e, some p => if emailOk e && p.length ≥ 8 then some ⟨e, p⟩ else none
  | _, _ => none

/-- `signupSchema.parse`: additionally requires `name : z.string()`. -/
def signupSchemaParse (emailOk : String → Bool) (b : RawAuthBody) :
    Option SignupData :=
  match b.name, b.email, b.password with
  | some n, some e, some p => if emailOk e && p.length ≥ 8 then some ⟨n, e, p⟩ else none
  | _, _, _ => none

/-- `movieSchema.parse` (index.ts): three required strings. -/
def movieSchemaParse (b : RawMovieBody) : Option MovieData :=
  match b.title, b.posterLink, b.watchLink with
  | some t, some p, some w => some ⟨t, p, w⟩
  | _, _, _ => none

/-- The Hono default error handler: an exception a handler does not catch
(e.g. a thrown `ZodError`) produces `c.text("Internal Server Error", 500)`.
Neither variant registers an `app.onError`. -/
def honoDefaultError : Response := ⟨500, .text "Internal Server Error"⟩

/-! ## src/index.ts: authentication -/

/-- `authenticate` (src/index.ts:77–89): reads the `authorization` header,
splits on spaces, requires scheme `"Bearer"` and a non-empty token (JS
`!token` is true for `undefined` and `""`), then `jwt.verify` inside
`try/catch`.  Every failure collapses to `null`.  `dec` maps the wire form of
a token to its structured form (`none` = not a decodable JWT). -/
def authenticate (dec : String → Option Token) (secret : String) (now : Nat)
    (header : Option String) : Option Payload :=
  match header with
  | none => none
  | some h =>
    match jsSplitSpace h with
    | [] => none
    | [_] => none
    | bearer :: token :: _ =>
      if bearer = "Bearer" && token ≠ "" then
        match dec token with
        | none => none
        | some t => jwtVerify t secret now
      else none

/-- Outcome of the `protectedRoute` middleware: either an early `401`
response, or control passes to the handler with `decoded.id` stored as
`userId` in the request context (absent when the payload has no `id`). -/
inductive AuthOutcome where
  | reject (r : Response)
  | proceed (userId : Option String)
deriving DecidableEq, Repr

/-- `protectedRoute` (src/index.ts:130–137). -/
def protectedRoute (dec : String → Option Token) (secret : String) (now : Nat)
    (header : Option String) : AuthOutcome :=
  match authenticate dec secret now header with
  | none => .reject ⟨401, .msg "Unauthorized"⟩
  | some decoded => .proceed decoded.id

/-! ## src/index.ts: signin / signup -/

/-- `db.select().from(users).where(eq(users.email, email))`. -/
def findByEmail (st : List User) (email : String) : List User :=
  st.filter (fun u => u.email = email)

/-- `POST /signin` (src/index.ts:91–104), after a successful body parse.
An unknown email or a failed `bcrypt.compare` both answer
`c.json({ message: "Invalid credentials", status: 401 })` — which is HTTP
status 200 carrying a JSON field `status: 401`.  Success signs `{ id }`. -/
def postSignin (st : List User) (secret : String) (d : SigninData) : Response :=
  match findByEmail st d.email with
  | [] => ⟨200, .msgStatus "Invalid credentials" 401⟩
  | u :: _ =>
    if bcryptCompare d.password u.password then
      ⟨200, .token (jwtSign ⟨some u.id, none, none, none, none⟩ secret)⟩
    else
      ⟨200, .msgStatus "Invalid credentials" 401⟩

/-- `POST /signup` (src/index.ts:106–128), after a successful body parse:
duplicate-email check first (`c.text("Email already in use", 400)`), then
hash, insert, and sign `{ id: newUser[0].id }`.  `freshId` is the `uuidv4()`
result and `salt` the bcrypt randomness. -/
def postSignup (st : List User) (secret freshId : String) (salt : Nat)
    (d : SignupData) : Response × List User :=
  match findByEmail st d.email with
  | _ :: _ => (⟨400, .text "Email already in use"⟩, st)
  | [] =>
    let newUser : User := ⟨freshId, d.email, bcryptHash d.password salt, d.name⟩
    (⟨200, .token (jwtSign ⟨some freshId, none, none, none, none⟩ secret)⟩,
     st ++ [newUser])

/-- `POST /signin` including the body parse: a `ZodError` escapes the handler
and hits the Hono default error handler. -/
def postSigninRaw (emailOk : String → Bool) (st : List User) (secret : String)
    (b : RawAuthBody) : Response :=
  match userSchemaParse emailOk b with
  | none => honoDefaultError
  | some d => postSignin st secret d

/-- `POST /signup` including the body parse. -/
def postSignupRaw (emailOk : String → Bool) (st : List User)
    (secret freshId : String) (salt : Nat) (b : RawAuthBody) :
    Response × List User :=
  match signupSchemaParse emailOk b with
  | none => (honoDefaultError, st)
  | some d => postSignup st secret freshId salt d

/-! ## src/index.ts: user and movie routes (all behind `protectedRoute`) -/

/-- `GET /user` handler body (src/index.ts:139–147): `db.select().from(users)`
returns an array, never `null`, so the `"No users in database"` branch is
dead and the raw rows — bcrypt password hashes included — are serialized with
`c.json(totalusers)`. -/
def getUserHandler (st : List User) : Response := ⟨200, .users st⟩

/-- The full `GET /user` route: middleware, then handler. -/
def getUserRoute (dec : String → Option Token) (secret : String) (now : Nat)
    (header : Option String) (st : List User) : Response :=
  match protectedRoute dec secret now header with
  | .reject r => r
  | .proceed _ => getUserHandler st

/-- `GET /movies` handler body (src/index.ts:149–153). -/
def getMoviesHandler (st : List Movie) : Response := ⟨200, .moviesData st⟩

/-- `POST /movies` handler body (src/index.ts:155–171): insert with a fresh
`uuidv4()` id, answer `201` with the `.returning()` row. -/
def postMovieHandler (st : List Movie) (freshId : String) (d : MovieData) :
    Response × List Movie :=
  let m : Movie := ⟨freshId, d.title, d.posterLink, d.watchLink⟩
  (⟨201, .movieRows [m]⟩, st ++ [m])

/-- `PUT /movies/:id` handler body (src/index.ts:173–190): update every row
whose `movieID` matches, answer `c.json(updatedMovie)` — HTTP 200 with the
`.returning()` rows, which is the empty array when no row matched. -/
def putMovieHandler (st : List Movie) (id : String) (d : MovieData) :
    Response × List Movie :=
  let st2 := st.map (fun m =>
    if m.movieID = id then ⟨m.movieID, d.title, d.posterLink, d.watchLink⟩ else m)
  (⟨200, .movieRows (st2.filter (fun m => m.movieID = id))⟩, st2)

/-- `DELETE /movies/:id` handler body (src/index.ts:192–198): delete matching
rows and answer `c.text("Movie deleted successfully", 204)` unconditionally. -/
def deleteMovieHandler (st : List Movie) (id : String) : Response × List Movie :=
  (⟨204, .text "Movie deleted successfully"⟩,
   st.filter (fun m => ¬ m.movieID = id))

/-! ## part_000 variant -/

/-- The token payload both `POST /signin` (part_000:92–96) and `POST /signup`
(part_000:132–136) build: `{ sub, role: "user", exp: now + 60*60*24 }`. -/
def variantPayload (uid : String) (now : Nat) : Payload :=
  ⟨none, some uid, some "user", some (now + 60 * 60 * 24), none⟩

/-- `POST /signin` (part_000:63–102), after a successful body parse.  An
unknown email answers `c.json({ mssg: "Invalid user", status: 401 })` (HTTP
200); a failed `bcrypt.compare` answers `c.json({ mssg: "Invalid password" })`
(HTTP 200).  The guard `if (parsedBody.password && user[0].password)` is
always true here: the parsed password has length ≥ 8 and stored rows carry a
hash, so both strings are truthy.  On success, `sign(payload, secret)` from
hono/jwt is async but `const token = sign(…)` (part_000:98) never awaits it,
so `c.json({ token })` serializes the pending promise: the body is
`{"token":{}}` (`.tokenPending`), not the signed token.  The token that
promise resolves to is modelled by `signinVariantIssuedToken`. -/
def postSigninVariant (st : List User) (secret : String) (now : Nat)
    (d : SigninData) : Response :=
  match findByEmail st d.email with
  | [] => ⟨200, .mssgStatus "Invalid user" 401⟩
  | u :: _ =>
    if bcryptCompare d.password u.password then
      ⟨200, .tokenPending⟩
    else
      ⟨200, .mssg "Invalid password"⟩

/-- The token that the promise built at part_000:98 resolves to: the signing
`sign(variantPayload, secret)` happens (server-side) exactly when signin
reaches the success branch; on the failure branches nothing is signed. -/
def signinVariantIssuedToken (st : List User) (secret : String) (now : Nat)
    (d : SigninData) : Option Token :=
  match findByEmail st d.email with
  | [] => none
  | u :: _ =>
    if bcryptCompare d.password u.password then
      some (jwtSign (variantPayload u.id now) secret)
    else none

/-- `POST /signup` (part_000:105–141), after a successful body parse: same
duplicate check as index.ts, then insert and sign `variantPayload`.  As in
signin, `sign` at part_000:138 is not awaited, so the 200 body serializes the
pending promise as `{"token":{}}` (`.tokenPending`); the token the promise
resolves to is modelled by `signupVariantIssuedToken`. -/
def postSignupVariant (st : List User) (secret freshId : String) (salt now : Nat)
    (d : SignupData) : Response × List User :=
  match findByEmail st d.email with
  | _ :: _ => (⟨400, .text "Email already in use"⟩, st)
  | [] =>
    let newUser : User := ⟨freshId, d.email, bcryptHash d.password salt, d.name⟩
    (⟨200, .tokenPending⟩, st ++ [newUser])

/-- The token that the promise built at part_000:138 resolves to: signing
happens exactly when signup passes the duplicate-email check. -/
def signupVariantIssuedToken (st : List User) (secret freshId : String)
    (now : Nat) (d : SignupData) : Option Token :=
  match findByEmail st d.email with
  | _ :: _ => none
  | [] => some (jwtSign (variantPayload freshId now) secret)

/-- Outcome of the part_000 `GET /movies` handler (part_000:144–186).  With no
`authorization` header the `if (header)` guard skips everything and the
handler returns `undefined` (no response is written); every error raised
inside is re-thrown from the outer `catch` as `Error("missing Auth header")`,
which no handler catches, so Hono answers 500. -/
inductive MoviesOutcome where
  /-- The handler returned a response. -/
  | ok (r : Response)
  /-- An `Error` escaped the handler (Hono answers 500 Internal Server Error). -/
  | thrown (message : String)
  /-- The handler returned `undefined`; no response was produced. -/
  | noResponse
deriving DecidableEq, Repr

/-- `GET /movies` (part_000:144–186): splits the header, verifies `filter[1]`
without checking the scheme word, requires `decodedPayload.userId`, then
selects the user by that id — the resulting array is truthy even when empty —
and returns `{ moviesData }`.  All throws funnel through the outer catch into
an uncaught `Error("missing Auth header")`. -/
def getMoviesVariant (dec : String → Option Token) (secret : String) (now : Nat)
    (movieSt : List Movie) (header : Option String) : MoviesOutcome :=
  match header with
  | none => .noResponse
  | some h =>
    match jsSplitSpace h with
    | [] => .thrown "missing Auth header"
    | [_] => .thrown "missing Auth header"
    | _ :: token :: _ =>
      match dec token with
      | none => .thrown "missing Auth header"
      | some t =>
        match jwtVerify t secret now with
        | none => .thrown "missing Auth header"
        | some p =>
          match p.userId with
          | none => .thrown "missing Auth header"
          | some _ => .ok ⟨200, .moviesData movieSt⟩

/-- `movieSchema` in part_000 names the third field `watchNowLink`
(part_000:56–60); `POST /movies` and `PUT /movies/:id` store it in the
`watchLink` column. -/
structure MovieDataVariant where
  title : String
  posterLink : String
  watchNowLink : String
deriving DecidableEq, Repr

/-- `POST /movies` (part_000:188–205). -/
def postMovieVariant (st : List Movie) (freshId : String) (d : MovieDataVariant) :
    Response × List Movie :=
  let m : Movie := ⟨freshId, d.title, d.posterLink, d.watchNowLink⟩
  (⟨201, .movieRows [m]⟩, st ++ [m])

/-- `PUT /movies/:id` (part_000:207–225): same shape as index.ts. -/
def putMovieVariant (st : List Movie) (id : String) (d : MovieDataVariant) :
    Response × List Movie :=
  let st2 := st.map (fun m =>
    if m.movieID = id then ⟨m.movieID, d.title, d.posterLink, d.watchNowLink⟩ else m)
  (⟨200, .movieRows (st2.filter (fun m => m.movieID = id))⟩, st2)

/-- `DELETE /movies/:id` (part_000:227–235): unconditional 204. -/
def deleteMovieVariant (st : List Movie) (id : String) : Response × List Movie :=
  (⟨204, .text "Movie deleted successfully"⟩,
   st.filter (fun m => ¬ m.movieID = id))

/-- `POST /movies` (index.ts) including the body parse, for the validation
claims: a `ZodError` escapes to the Hono default handler. -/
def postMovieRaw (st : List Movie) (freshId : String) (b : RawMovieBody) :
    Response × List Movie :=
  match movieSchemaParse b with
  | none => (honoDefaultError, st)
  | some d => postMovieHandler st freshId d

/-! ## Helper lemmas -/

/-- A chunk with no space is not split further. -/
theorem splitSp_no_space (l : List Char) (h : ' ' ∉ l) : splitSp l = [l] := by
  induction l with
  | nil => rfl
  | cons c cs ih =>
    have hc : ¬ c = ' ' := fun hc => h (hc ▸ List.mem_cons_self c cs)
    have hcs : ' ' ∉ cs := fun hm => h (List.mem_cons_of_mem c hm)
    simp [splitSp, hc, ih hcs]

/-- A well-formed `Bearer` header whose token contains no space splits into
exactly the scheme word and the token. -/
theorem jsSplitSpace_bearer (s : String) (h : ' ' ∉ s.data) :
    jsSplitSpace ("Bearer " ++ s) = ["Bearer", s] := by
  have hdata : ("Bearer " ++ s).data
      = 'B' :: 'e' :: 'a' :: 'r' :: 'e' :: 'r' :: ' ' :: s.data :=
    String.data_append _ _
  simp [jsSplitSpace, hdata, splitSp, splitSp_no_space s.data h]

/-- Successful verification always returns the token's own payload. -/
theorem jwtVerify_eq_some (t : Token) (s : String) (now : Nat) (p : Payload)
    (h : jwtVerify t s now = some p) : p = t.payload := by
  unfold jwtVerify at h
  by_cases hs : t.secret = s
  · simp only [if_pos hs] at h
    cases he : t.payload.exp with
    | none => simp [he] at h; exact h.symm
    | some e =>
      simp only [he] at h
      by_cases hn : now < e
      · simp [hn] at h; exact h.symm
      · simp [hn] at h
  · simp [hs] at h

/-- Inserting a user with a hitherto-unused email makes it the unique lookup
result for that email. -/
theorem findByEmail_insert (st : List User) (u : User)
    (h : ∀ v ∈ st, v.email ≠ u.email) :
    findByEmail (st ++ [u]) u.email = [u] := by
  unfold findByEmail
  rw [List.filter_append]
  have h1 : st.filter (fun v => v.email = u.email) = [] :=
    List.filter_eq_nil_iff.mpr (by intro v hv; simpa using h v hv)
  simp [h1]

/-- Looking up the email of a stored user never yields the empty list. -/
theorem findByEmail_ne_nil (st : List User) (u : User) (e : String)
    (hu : u ∈ st) (he : u.email = e) : findByEmail st e ≠ [] := by
  unfold findByEmail
  intro hnil
  exact (List.filter_eq_nil_iff.mp hnil u hu) (by simp [he])

/-- Removing every row with a given id leaves no row with that id. -/
theorem filter_not_filter (st : List Movie) (id : String) :
    ((st.filter (fun m => ¬ m.movieID = id)).filter (fun m => m.movieID = id))
      = [] := by
  simp only [List.filter_filter]
  apply List.filter_eq_nil_iff.mpr
  intro m _
  simp only [Bool.and_eq_true, decide_eq_true_eq]
  rintro ⟨h1, h2⟩
  exact h2 h1

/-- An email matching no stored account looks up to the empty list. -/
theorem findByEmail_eq_nil (st : List User) (e : String)
    (h : ∀ u ∈ st, u.email ≠ e) : findByEmail st e = [] :=
  List.filter_eq_nil_iff.mpr (fun u hu => by simpa using h u hu)

/-! ## Shared concrete data for witnesses and counterexamples -/

/-- `bcrypt.hash("correctpass1", 10)` with salt 0. -/
def demoHash : BHash := bcryptHash "correctpass1" 0

/-- A stored account. -/
def demoUser : User := ⟨"u1", "ann@x.com", demoHash, "Ann"⟩

/-- A stored movie. -/
def demoMovie : Movie := ⟨"m0", "Alien", "poster0", "watch0"⟩

/-- A wire-format decoder knowing one token string `"tok"` for a token signed
with secret `"sec"` over the index.ts payload `{ id: "u1" }`. -/
def demoDec : String → Option Token :=
  fun s => if s = "tok" then some (jwtSign ⟨some "u1", none, none, none, none⟩ "sec") else none

/-- A decoder for the part_000 payload `{ sub: "u1", role: "user", exp: 86400 }`. -/
def demoDecVariant : String → Option Token :=
  fun s => if s = "tok" then some (jwtSign (variantPayload "u1" 0) "sec") else none

/-! ## Claims -/

/-- C1: the spec requires every protected-route failure (missing header,
non-Bearer scheme, failed verification) to answer 401 and every success to
reach the handler.  The `protectedRoute` middleware of src/index.ts does so,
but the part_000 variant's `GET /movies` — listed as a protected route — does
not: with no `authorization` header the handler returns `undefined` (no
response, so no 401), and a malformed header or an undecodable token makes it
throw an uncaught `Error("missing Auth header")`, which Hono surfaces as a
500, not a 401.  This theorem evaluates that handler at the failing inputs. -/
theorem c1_variant_get_movies_never_401 :
    getMoviesVariant demoDec "sec" 0 [demoMovie] none = .noResponse ∧
    getMoviesVariant demoDec "sec" 0 [demoMovie] (some "Bearertok")
      = .thrown "missing Auth header" ∧
    getMoviesVariant demoDec "sec" 0 [demoMovie] (some "Bearer garbage")
      = .thrown "missing Auth header" ∧
    MoviesOutcome.noResponse ≠ .ok ⟨401, .msg "Unauthorized"⟩ ∧
    MoviesOutcome.thrown "missing Auth header" ≠ .ok ⟨401, .msg "Unauthorized"⟩ := by
  decide

/-- C2: the spec requires signin failures to carry HTTP status 401 with one
generic message for both causes.  In src/index.ts both causes answer
`c.json({ message: "Invalid credentials", status: 401 })`, which is HTTP
status 200 (the 401 is only a JSON body field); in part_000 an unknown email
answers `{ mssg: "Invalid user", status: 401 }` while a wrong password
answers `{ mssg: "Invalid password" }` — both HTTP 200 and mutually
distinguishable. -/
theorem c2_signin_failures_not_401 :
    postSignin [] "sec" ⟨"ann@x.com", "password123"⟩
      = ⟨200, .msgStatus "Invalid credentials" 401⟩ ∧
    postSignin [demoUser] "sec" ⟨"ann@x.com", "wrongpass123"⟩
      = ⟨200, .msgStatus "Invalid credentials" 401⟩ ∧
    postSigninVariant [] "sec" 0 ⟨"ann@x.com", "password123"⟩
      = ⟨200, .mssgStatus "Invalid user" 401⟩ ∧
    postSigninVariant [demoUser] "sec" 0 ⟨"ann@x.com", "wrongpass123"⟩
      = ⟨200, .mssg "Invalid password"⟩ ∧
    (⟨200, .mssgStatus "Invalid user" 401⟩ : Response)
      ≠ ⟨200, .mssg "Invalid password"⟩ ∧
    (200 : Nat) ≠ 401 := by
  decide

/-- C3 counterexample: src/index.ts issues tokens with `jwt.sign({ id }, …)` —
no role and no `exp` claim at all — so a token issued by its signin encodes
neither the role nor an expiry of issuance + 24h, and still verifies
1 000 000 000 seconds later.  This refutes "for every issued token, the token
encodes the subject identifier, the role, and an expiry of issuance time plus
the ttl". -/
theorem c3_index_tokens_have_no_expiry :
    postSignin [demoUser] "sec" ⟨"ann@x.com", "correctpass1"⟩
      = ⟨200, .token (jwtSign ⟨some "u1", none, none, none, none⟩ "sec")⟩ ∧
    (jwtSign ⟨some "u1", none, none, none, none⟩ "sec").payload.role = none ∧
    (jwtSign ⟨some "u1", none, none, none, none⟩ "sec").payload.exp = none ∧
    jwtVerify (jwtSign ⟨some "u1", none, none, none, none⟩ "sec") "sec" 1000000000
      = some ⟨some "u1", none, none, none, none⟩ := by
  decide

/-- C5: the spec requires `PUT /movies/:id` and `DELETE /movies/:id` to answer
404 when no movie has the given id.  In both variants `PUT` answers HTTP 200
with the empty `.returning()` array and `DELETE` answers 204 unconditionally —
exactly the silent successes the claim rules out.  Evaluated at a store that
does not contain id `"m1"`. -/
theorem c5_put_delete_missing_id_not_404 :
    putMovieHandler [demoMovie] "m1" ⟨"T", "p", "w"⟩
      = (⟨200, .movieRows []⟩, [demoMovie]) ∧
    deleteMovieHandler [demoMovie] "m1"
      = (⟨204, .text "Movie deleted successfully"⟩, [demoMovie]) ∧
    putMovieVariant [demoMovie] "m1" ⟨"T", "p", "w"⟩
      = (⟨200, .movieRows []⟩, [demoMovie]) ∧
    deleteMovieVariant [demoMovie] "m1"
      = (⟨204, .text "Movie deleted successfully"⟩, [demoMovie]) := by
  decide

/-- C8: the spec requires a 400 for bodies failing shape validation.  Both
variants call `schema.parse(body)`, which throws a `ZodError` on failure, and
neither registers an error handler, so Hono's default handler answers
`500 "Internal Server Error"`.  Evaluated at a too-short password, a missing
name, a too-short signin password, and a movie body missing `posterLink`. -/
theorem c8_validation_failures_yield_500 :
    (postSignupRaw (fun _ => true) [] "sec" "u1" 0
      ⟨some "Ann", some "ann@x.com", some "short"⟩).1
      = ⟨500, .text "Internal Server Error"⟩ ∧
    (postSignupRaw (fun _ => true) [] "sec" "u1" 0
      ⟨none, some "ann@x.com", some "password123"⟩).1 = honoDefaultError ∧
    postSigninRaw (fun _ => true) [demoUser] "sec"
      ⟨none, some "ann@x.com", some "short"⟩ = honoDefaultError ∧
    (postMovieRaw [] "m1" ⟨some "T", none, some "w"⟩).1 = honoDefaultError ∧
    honoDefaultError.status = 500 ∧ honoDefaultError.status ≠ 400 := by
  decide

/-- C3 (amended): tokens issued by the part_000 variant encode the subject
(`sub`), the role `"user"`, and `exp` = issuance time + 60·60·24 seconds;
verification before that expiry returns the original payload (hence subject
and role) and verification at or after it fails.  Tokens issued by the
src/index.ts variant encode only the user id — no role and no expiry — and
verify successfully at any time. -/
theorem c3_amended_token_lifecycle (uid secret : String) (now t : Nat) :
    (variantPayload uid now).sub = some uid ∧
    (variantPayload uid now).role = some "user" ∧
    (variantPayload uid now).exp = some (now + 60 * 60 * 24) ∧
    (t < now + 60 * 60 * 24 →
      jwtVerify (jwtSign (variantPayload uid now) secret) secret t
        = some (variantPayload uid now)) ∧
    (now + 60 * 60 * 24 ≤ t →
      jwtVerify (jwtSign (variantPayload uid now) secret) secret t = none) ∧
    (jwtSign ⟨some uid, none, none, none, none⟩ secret).payload.role = none ∧
    (jwtSign ⟨some uid, none, none, none, none⟩ secret).payload.exp = none ∧
    jwtVerify (jwtSign ⟨some uid, none, none, none, none⟩ secret) secret t
      = some ⟨some uid, none, none, none, none⟩ := by
  refine ⟨rfl, rfl, rfl, ?_, ?_, rfl, rfl, ?_⟩
  · intro ht
    simp [jwtVerify, jwtSign, variantPayload, ht]
  · intro ht
    simp [jwtVerify, jwtSign, variantPayload, Nat.not_lt.mpr ht]
  · simp [jwtVerify, jwtSign]

/-- Witness for `c3_amended_token_lifecycle`: a token issued at time 0
verifies at time 100 and is rejected at time 86400. -/
theorem c3_amended_token_lifecycle_witness :
    jwtVerify (jwtSign (variantPayload "u1" 0) "sec") "sec" 100
      = some (variantPayload "u1" 0) ∧
    jwtVerify (jwtSign (variantPayload "u1" 0) "sec") "sec" 86400 = none :=
  ⟨(c3_amended_token_lifecycle "u1" "sec" 0 100).2.2.2.1 (by decide),
   (c3_amended_token_lifecycle "u1" "sec" 0 86400).2.2.2.2.1 (by decide)⟩

/-- C4 counterexample: in the part_000 variant, signup followed by signin with
the same credentials does answer 200, but `sign` (part_000:98) is async and
never awaited, so the signin body serializes the pending promise as
`{"token":{}}` — it carries no token, in particular not the signed token the
promise would resolve to.  This refutes "returns a token that Token Service
verification accepts" for that variant. -/
theorem c4_variant_signin_returns_no_token :
    (postSignupVariant [] "sec" "u1" 0 0 ⟨"Ann", "ann@x.com", "password123"⟩).1
      = ⟨200, .tokenPending⟩ ∧
    postSigninVariant
        (postSignupVariant [] "sec" "u1" 0 0 ⟨"Ann", "ann@x.com", "password123"⟩).2
        "sec" 5 ⟨"ann@x.com", "password123"⟩ = ⟨200, .tokenPending⟩ ∧
    RespBody.tokenPending ≠ .token (jwtSign (variantPayload "u1" 5) "sec") := by
  decide

/-- C4 (amended): for a signup whose email is not yet stored, signup then
signin with the same email and password answers 200 in both variants.  In the
index.ts variant the signin response carries a token that JWT verification
accepts.  In the part_000 variant the response body is the serialized pending
promise `{"token":{}}` and carries no token; the signing does happen
server-side, and the token the un-awaited promise resolves to would pass
verification at any time before the 24-hour expiry. -/
theorem c4_signup_then_signin (st : List User)
    (secret freshId name email password : String) (salt now now2 tv : Nat)
    (hfresh : ∀ u ∈ st, u.email ≠ email)
    (htv : tv < now2 + 60 * 60 * 24) :
    (postSignup st secret freshId salt ⟨name, email, password⟩).1
      = ⟨200, .token (jwtSign ⟨some freshId, none, none, none, none⟩ secret)⟩ ∧
    postSignin (postSignup st secret freshId salt ⟨name, email, password⟩).2
        secret ⟨email, password⟩
      = ⟨200, .token (jwtSign ⟨some freshId, none, none, none, none⟩ secret)⟩ ∧
    jwtVerify (jwtSign ⟨some freshId, none, none, none, none⟩ secret) secret tv
      = some ⟨some freshId, none, none, none, none⟩ ∧
    (postSignupVariant st secret freshId salt now ⟨name, email, password⟩).1
      = ⟨200, .tokenPending⟩ ∧
    postSigninVariant
        (postSignupVariant st secret freshId salt now ⟨name, email, password⟩).2
        secret now2 ⟨email, password⟩
      = ⟨200, .tokenPending⟩ ∧
    signinVariantIssuedToken
        (postSignupVariant st secret freshId salt now ⟨name, email, password⟩).2
        secret now2 ⟨email, password⟩
      = some (jwtSign (variantPayload freshId now2) secret) ∧
    jwtVerify (jwtSign (variantPayload freshId now2) secret) secret tv
      = some (variantPayload freshId now2) := by
  have h0 : findByEmail st email = [] := findByEmail_eq_nil st email hfresh
  have h1 : findByEmail
      (st ++ [⟨freshId, email, ⟨password, salt⟩, name⟩]) email
      = [⟨freshId, email, ⟨password, salt⟩, name⟩] :=
    findByEmail_insert st ⟨freshId, email, ⟨password, salt⟩, name⟩ hfresh
  refine ⟨?_, ?_, ?_, ?_, ?_, ?_, ?_⟩
  · simp [postSignup, h0]
  · simp [postSignup, h0, postSignin, h1, bcryptCompare, bcryptHash]
  · simp [jwtVerify, jwtSign]
  · simp [postSignupVariant, h0]
  · simp [postSignupVariant, h0, postSigninVariant, h1, bcryptCompare, bcryptHash]
  · simp [postSignupVariant, h0, signinVariantIssuedToken, h1, bcryptCompare,
      bcryptHash]
  · simp [jwtVerify, jwtSign, variantPayload, htv]

/-- Witness for `c4_signup_then_signin` on an empty store. -/
theorem c4_signup_then_signin_witness :
    postSignin (postSignup [] "sec" "u1" 0 ⟨"Ann", "ann@x.com", "password123"⟩).2
        "sec" ⟨"ann@x.com", "password123"⟩
      = ⟨200, .token (jwtSign ⟨some "u1", none, none, none, none⟩ "sec")⟩ ∧
    jwtVerify (jwtSign (variantPayload "u1" 7) "sec") "sec" 50
      = some (variantPayload "u1" 7) :=
  ⟨(c4_signup_then_signin [] "sec" "u1" "Ann" "ann@x.com" "password123" 0 5 7 50
      (by simp) (by decide)).2.1,
   (c4_signup_then_signin [] "sec" "u1" "Ann" "ann@x.com" "password123" 0 5 7 50
      (by simp) (by decide)).2.2.2.2.2.2⟩

/-- C6: a signup whose email equals the email of any stored account answers
`400 "Email already in use"` — whatever the supplied name and password — and
returns before the insert, so the account store is unchanged.  Proved for
both variants. -/
theorem c6_duplicate_signup_rejected (st : List User) (secret freshId : String)
    (salt now : Nat) (d : SignupData) (u : User)
    (hu : u ∈ st) (he : u.email = d.email) :
    postSignup st secret freshId salt d
      = (⟨400, .text "Email already in use"⟩, st) ∧
    postSignupVariant st secret freshId salt now d
      = (⟨400, .text "Email already in use"⟩, st) := by
  have hne := findByEmail_ne_nil st u d.email hu he
  cases hfb : findByEmail st d.email with
  | nil => exact absurd hfb hne
  | cons v vs =>
    constructor
    · simp [postSignup, hfb]
    · simp [postSignupVariant, hfb]

/-- Witness for `c6_duplicate_signup_rejected`: re-registering `demoUser`'s
email with a different name and password. -/
theorem c6_duplicate_signup_rejected_witness :
    postSignup [demoUser] "sec" "u2" 1 ⟨"Bob", "ann@x.com", "otherpass123"⟩
      = (⟨400, .text "Email already in use"⟩, [demoUser]) :=
  (c6_duplicate_signup_rejected [demoUser] "sec" "u2" 1 0
      ⟨"Bob", "ann@x.com", "otherpass123"⟩ demoUser (by simp) rfl).1

/-- C7: creating a movie then listing includes the created record with the
request's `title`/`posterLink`/`watchLink` (in part_000 the request field for
the watch link is named `watchNowLink`); updating it then listing reflects
the new values; deleting it then listing leaves no record with its id.
Proved for both variants. -/
theorem c7_movie_crud_roundtrip (st : List Movie) (freshId : String)
    (d d2 : MovieData) (dv dv2 : MovieDataVariant) :
    getMoviesHandler (postMovieHandler st freshId d).2
      = ⟨200, .moviesData (postMovieHandler st freshId d).2⟩ ∧
    (⟨freshId, d.title, d.posterLink, d.watchLink⟩ : Movie)
      ∈ (postMovieHandler st freshId d).2 ∧
    (⟨freshId, d2.title, d2.posterLink, d2.watchLink⟩ : Movie)
      ∈ (putMovieHandler (postMovieHandler st freshId d).2 freshId d2).2 ∧
    ((deleteMovieHandler
        (putMovieHandler (postMovieHandler st freshId d).2 freshId d2).2
        freshId).2).filter (fun m => m.movieID = freshId) = [] ∧
    (⟨freshId, dv.title, dv.posterLink, dv.watchNowLink⟩ : Movie)
      ∈ (postMovieVariant st freshId dv).2 ∧
    (⟨freshId, dv2.title, dv2.posterLink, dv2.watchNowLink⟩ : Movie)
      ∈ (putMovieVariant (postMovieVariant st freshId dv).2 freshId dv2).2 ∧
    ((deleteMovieVariant
        (putMovieVariant (postMovieVariant st freshId dv).2 freshId dv2).2
        freshId).2).filter (fun m => m.movieID = freshId) = [] := by
  refine ⟨rfl, ?_, ?_, ?_, ?_, ?_, ?_⟩
  · simp [postMovieHandler]
  · have hm : (⟨freshId, d.title, d.posterLink, d.watchLink⟩ : Movie)
        ∈ (postMovieHandler st freshId d).2 := by simp [postMovieHandler]
    simp only [putMovieHandler]
    exact List.mem_map.mpr ⟨_, hm, by simp⟩
  · exact filter_not_filter _ freshId
  · simp [postMovieVariant]
  · have hm : (⟨freshId, dv.title, dv.posterLink, dv.watchNowLink⟩ : Movie)
        ∈ (postMovieVariant st freshId dv).2 := by simp [postMovieVariant]
    simp only [putMovieVariant]
    exact List.mem_map.mpr ⟨_, hm, by simp⟩
  · exact filter_not_filter _ freshId

/-- C9: whenever the bearer token verifies, `GET /user` answers 200 with the
raw `User` rows of the whole store — each row carrying its bcrypt password
hash — to the authenticated caller, whoever they are. -/
theorem c9_get_user_returns_all_rows (dec : String → Option Token)
    (secret : String) (now : Nat) (header : Option String) (st : List User)
    (p : Payload) (hauth : authenticate dec secret now header = some p) :
    getUserRoute dec secret now header st = ⟨200, .users st⟩ := by
  simp [getUserRoute, protectedRoute, hauth, getUserHandler]

/-- Witness for `c9_get_user_returns_all_rows` with a concrete valid token. -/
theorem c9_get_user_returns_all_rows_witness :
    getUserRoute demoDec "sec" 0 (some "Bearer tok") [demoUser]
      = ⟨200, .users [demoUser]⟩ :=
  c9_get_user_returns_all_rows demoDec "sec" 0 (some "Bearer tok") [demoUser]
    ⟨some "u1", none, none, none, none⟩ (by decide)

/-- C10: every token issued by the part_000 variant's signin or signup — the
token the un-awaited `sign` promise resolves to — has no `userId` claim (its
payload is `{ sub, role, exp }`), while that variant's `GET /movies` only
returns the movie list when the verified payload has a `userId`; presenting
such a token therefore always ends in the thrown
`Error("missing Auth header")` and never in the movie list. -/
theorem c10_variant_tokens_rejected_by_get_movies (st : List User)
    (secret : String) (now : Nat) (d : SigninData) (sd : SignupData)
    (freshId : String) (now2 : Nat) (t : Token)
    (dec : String → Option Token) (tokStr secret2 : String) (now3 : Nat)
    (movieSt : List Movie)
    (hissued : signinVariantIssuedToken st secret now d = some t ∨
      signupVariantIssuedToken st secret freshId now2 sd = some t)
    (hdec : dec tokStr = some t)
    (hsp : ' ' ∉ tokStr.data) :
    t.payload.userId = none ∧
    getMoviesVariant dec secret2 now3 movieSt (some ("Bearer " ++ tokStr))
      = .thrown "missing Auth header" := by
  have huid : t.payload.userId = none := by
    rcases hissued with h | h
    · unfold signinVariantIssuedToken at h
      cases hfb : findByEmail st d.email with
      | nil => rw [hfb] at h; simp at h
      | cons u us =>
        rw [hfb] at h
        by_cases hc : bcryptCompare d.password u.password
        · simp [hc] at h
          rw [← h]
          rfl
        · simp [hc] at h
    · unfold signupVariantIssuedToken at h
      cases hfb : findByEmail st sd.email with
      | nil =>
        rw [hfb] at h
        simp at h
        rw [← h]
        rfl
      | cons u us => rw [hfb] at h; simp at h
  refine ⟨huid, ?_⟩
  cases hv : jwtVerify t secret2 now3 with
  | none => simp [getMoviesVariant, jsSplitSpace_bearer tokStr hsp, hdec, hv]
  | some p =>
    have hp : p = t.payload := jwtVerify_eq_some t secret2 now3 p hv
    simp [getMoviesVariant, jsSplitSpace_bearer tokStr hsp, hdec, hv, hp, huid]

/-- Witness for `c10_variant_tokens_rejected_by_get_movies`: the token the
variant's signin issues for `demoUser` is decodable as `"tok"` and makes
`GET /movies` throw. -/
theorem c10_variant_tokens_rejected_witness :
    (jwtSign (variantPayload "u1" 0) "sec").payload.userId = none ∧
    getMoviesVariant demoDecVariant "sec" 0 [demoMovie]
        (some ("Bearer " ++ "tok")) = .thrown "missing Auth header" :=
  c10_variant_tokens_rejected_by_get_movies [demoUser] "sec" 0
    ⟨"ann@x.com", "correctpass1"⟩ ⟨"Ann", "ann@x.com", "correctpass1"⟩ "u1" 0
    (jwtSign (variantPayload "u1" 0) "sec") demoDecVariant "tok" "sec" 0
    [demoMovie] (Or.inl (by decide)) (by decide) (by decide)
